import Mathlib

/-!
Verification of the GST purchase-vs-GSTR-2B reconciliation engine.

The repository contains two implementations of the same reconciliation
pipeline: `app.py` (row-loop engine over a key -> record dictionary) and
`app2.py` (vectorised engine built on a left merge).  Both are embedded
below; definitions prefixed `app1` come from `app.py`, those prefixed
`app2` from `app2.py`.  Shared helpers (`valid_gstin`, the join key,
`value_counts`, `vendor_summary`) are identical in the two files and are
defined once.

Numeric tax amounts are modelled as rationals (the sources hold Excel
numerics in float columns; every claim is about exact arithmetic on the
stored values).  pandas-specific behaviour is modelled faithfully:
`DataFrame.to_dict(orient="index")` fails when the index is not unique,
a left merge emits one row per matching right-hand row, and
`Series.value_counts` has no entry for values that never occur.
-/

namespace GST

/-- Canonical purchase-register record after normalization: the six
canonical fields.  Dates play no role in classification and are kept
abstract as an optional number. -/
structure PRow where
  gstin : String
  invoice_number : String
  invoice_date : Option Int
  cgst : ℚ
  sgst : ℚ
  igst : ℚ
deriving Repr, DecidableEq

/-- Canonical GSTR-2B (reference) record after normalization. -/
structure BRow where
  gstin : String
  invoice_number : String
  invoice_date : Option Int
  cgst : ℚ
  sgst : ℚ
  igst : ℚ
deriving Repr, DecidableEq

/-- Join key: `GSTIN.astype(str) + "_" + Invoice_Number.astype(str)`
(identical in app.py lines 104-112 and app2.py lines 91-92). -/
def mkKey (g inv : String) : String := g ++ "_" ++ inv

/-- The `KEY` column of a purchase row. -/
def PRow.key (r : PRow) : String := mkKey r.gstin r.invoice_number

/-- The `KEY` column of a reference row. -/
def BRow.key (r : BRow) : String := mkKey r.gstin r.invoice_number

/-! ## GSTIN validation (`valid_gstin`, identical in both files)

The source regex is `^[0-9]{2}[A-Z]{5}[0-9]{4}[A-Z]{1}[1-9A-Z]{1}Z[0-9A-Z]{1}$`
applied with `re.match`.  We embed it as a list of 15 character classes
together with the Python semantics of the `$` anchor, which matches at the
end of the string and also just before a single trailing newline. -/

/-- Regex class `[0-9]`. -/
def isDigit (c : Char) : Bool := '0' ≤ c && c ≤ '9'

/-- Regex class `[A-Z]`. -/
def isUpperAZ (c : Char) : Bool := 'A' ≤ c && c ≤ 'Z'

/-- Regex class `[1-9A-Z]` (13th position of the pattern): note that the
digit `0` is NOT in this class. -/
def isEntityCode (c : Char) : Bool := ('1' ≤ c && c ≤ '9') || isUpperAZ c

/-- Regex class `[0-9A-Z]` (final position of the pattern). -/
def isAlnumUC (c : Char) : Bool := isDigit c || isUpperAZ c

/-- The 15 character classes of the GSTIN regex, in order. -/
def gstinClasses : List (Char → Bool) :=
  [isDigit, isDigit,
   isUpperAZ, isUpperAZ, isUpperAZ, isUpperAZ, isUpperAZ,
   isDigit, isDigit, isDigit, isDigit,
   isUpperAZ, isEntityCode, (· == 'Z'), isAlnumUC]

/-- A list of characters matches a list of character classes positionally
(same length, each class accepts its character). -/
def matchesClasses : List (Char → Bool) → List Char → Bool
  | [], [] => true
  | p :: ps, c :: cs => p c && matchesClasses ps cs
  | _, _ => false

/-- Python `re.match` with a `^pattern$` regex of fixed character classes:
the whole string matches, or everything before a single trailing newline
matches (`$` also anchors just before a final newline in Python). -/
def reFullMatch (ps : List (Char → Bool)) (cs : List Char) : Bool :=
  matchesClasses ps cs ||
    (cs.getLast? == some '\n' && matchesClasses ps cs.dropLast)

/-- Function `valid_gstin` from app.py lines 27-29 / app2.py lines 29-31. -/
def valid_gstin (s : String) : Bool := reFullMatch gstinClasses s.data

/-! ## app.py engine (row loop over a dictionary) -/

/-- A classified output row (`results.append({...})` in app.py lines
148-157; the columns of `result_df` / `merged_df` selection in app2.py). -/
structure ResultRow where
  gstin : String
  invoice_number : String
  invoice_date : Option Int
  cgst : ℚ
  sgst : ℚ
  igst : ℚ
  status : String
  remark : String
deriving Repr, DecidableEq

/-- The lookup `b2b_df.set_index("KEY").to_dict("index")` (app.py line 115): pandas
raises `ValueError` when the index is not unique for `orient="index"`;
otherwise the result is a key -> row mapping.  (The exact pandas message
punctuation is elided.) -/
def to_dict_index (rows : List BRow) : Except String (List (String × BRow)) :=
  if (rows.map BRow.key).Nodup then Except.ok (rows.map (fun r => (r.key, r)))
  else Except.error "DataFrame index must be unique for orient=index."

/-- Sum of absolute tax-component differences (app.py lines 138-142). -/
def tax_diff (p : PRow) (b : BRow) : ℚ :=
  |p.cgst - b.cgst| + |p.sgst - b.sgst| + |p.igst - b.igst|

/-- Decimal rendering of a rational, standing in for Python string
formatting of the numeric difference in the f-string of app.py line 146. -/
def numStr (q : ℚ) : String :=
  if q.den = 1 then toString q.num else toString q.num ++ "/" ++ toString q.den

/-- The body of the matching loop of app.py lines 122-157 for one purchase
row: status defaults to `"Matched"` with an empty remark; an invalid GSTIN
overrides everything; otherwise a key absent from the dictionary is
`"Missing in 2B"`; otherwise a nonzero tax difference is `"Mismatch"`. -/
def classifyRow (dict : List (String × BRow)) (row : PRow) : ResultRow :=
  let base : ResultRow :=
    { gstin := row.gstin, invoice_number := row.invoice_number,
      invoice_date := row.invoice_date,
      cgst := row.cgst, sgst := row.sgst, igst := row.igst,
      status := "Matched", remark := "" }
  if valid_gstin row.gstin = false then
    { base with status := "Invalid GSTIN" }
  else
    match dict.lookup row.key with
    | none =>
        { base with status := "Missing in 2B",
                    remark := "Invoice not available in GSTR-2B" }
    | some b =>
        let d := tax_diff row b
        if d ≠ 0 then
          { base with status := "Mismatch",
                      remark := "Tax Difference = " ++ numStr d }
        else base

/-- The `results` list of app.py lines 120-159: one classified row per purchase
row, in order. -/
def app1Results (dict : List (String × BRow)) (purchase : List PRow) :
    List ResultRow :=
  purchase.map (classifyRow dict)

/-! ## app2.py engine (left merge, vectorised masks) -/

/-- A row of `merged_df` (app2.py lines 97-102): the purchase columns plus
the `_2B`-suffixed tax columns from the matching reference row; `none`
models the NaN values a left merge leaves for an unmatched key. -/
structure MergedRow where
  gstin : String
  invoice_number : String
  invoice_date : Option Int
  cgst : ℚ
  sgst : ℚ
  igst : ℚ
  ref : Option (ℚ × ℚ × ℚ)
deriving Repr, DecidableEq

/-- A merged row: the purchase columns extended with the optional `_2B`
tax columns. -/
def mergedOf (p : PRow) (r : Option (ℚ × ℚ × ℚ)) : MergedRow :=
  { gstin := p.gstin, invoice_number := p.invoice_number,
    invoice_date := p.invoice_date,
    cgst := p.cgst, sgst := p.sgst, igst := p.igst, ref := r }

/-- The merged rows a single purchase row produces under
`purchase_df.merge(b2b_df[...], on="KEY", how="left")`: one row per
reference row with the same key (in reference order), or a single
NaN-extended row when no key matches. -/
def mergeOne (b2b : List BRow) (p : PRow) : List MergedRow :=
  let ms := b2b.filter (fun b => b.key == p.key)
  if ms.isEmpty then [mergedOf p none]
  else ms.map (fun b => mergedOf p (some (b.cgst, b.sgst, b.igst)))

/-- The `merged_df` table (app2.py lines 97-102): left-merge of the purchase table
with the key and tax columns of the reference table. -/
def mergeLeft (purchase : List PRow) (b2b : List BRow) : List MergedRow :=
  purchase.flatMap (mergeOne b2b)

/-- The `Tax_Diff` column (app2.py lines 111-115): each component difference is
filled with 0 when the `_2B` value is NaN (unmatched key), so an unmatched
row has `Tax_Diff = 0`. -/
def app2TaxDiff (m : MergedRow) : ℚ :=
  match m.ref with
  | none => 0
  | some (c, s, i) => |m.cgst - c| + |m.sgst - s| + |m.igst - i|

/-- The `Status` column after the sequential mask assignments of app2.py
lines 107-128.  The initial value is `"Matched"`; the masks are applied in
source order (Invalid GSTIN, then Missing, then Mismatch), each conjoined
with `GSTIN_Valid` for the Missing and Mismatch writes, so a later
matching write wins — hence the reversed if-chain. -/
def app2Status (m : MergedRow) : String :=
  let valid := valid_gstin m.gstin
  let missing := m.ref.isNone
  let mismatch := decide (app2TaxDiff m ≠ 0) && !missing
  if mismatch && valid then "Mismatch"
  else if missing && valid then "Missing in 2B"
  else if !valid then "Invalid GSTIN"
  else "Matched"

/-- The `Remark` column after the same mask assignments: empty initially,
`"Invoice not in 2B"` for valid-GSTIN unmatched rows, `"Tax Difference"`
(a fixed string, without the numeric value) for valid-GSTIN mismatches. -/
def app2Remark (m : MergedRow) : String :=
  let valid := valid_gstin m.gstin
  let missing := m.ref.isNone
  let mismatch := decide (app2TaxDiff m ≠ 0) && !missing
  if mismatch && valid then "Tax Difference"
  else if missing && valid then "Invoice not in 2B"
  else ""

/-- Projection of a merged row onto the `result_df` columns of app2.py
lines 131-134. -/
def app2ResultRow (m : MergedRow) : ResultRow :=
  { gstin := m.gstin, invoice_number := m.invoice_number,
    invoice_date := m.invoice_date,
    cgst := m.cgst, sgst := m.sgst, igst := m.igst,
    status := app2Status m, remark := app2Remark m }

/-- The `result_df` table of app2.py: the merged rows with their computed status and
remark.  (The sidebar filters of lines 139-165 are modelled in their
default, empty state, in which `filtered_df` equals `result_df`.) -/
def app2Results (purchase : List PRow) (b2b : List BRow) : List ResultRow :=
  (mergeLeft purchase b2b).map app2ResultRow

/-! ## Aggregator (`value_counts` and `vendor_summary`, same in both files) -/

/-- pandas `Series.value_counts()` viewed as a mapping: one entry per value that
occurs, paired with its number of occurrences.  A value with no
occurrences has no entry.  (pandas additionally orders the entries by
descending count; the ordering is irrelevant to every claim.) -/
def value_counts (l : List String) : List (String × Nat) :=
  l.dedup.map (fun v => (v, l.count v))

/-- The status values occurring in a classified result set: the columns
`unstack()` creates for the vendor summary. -/
def statusColumns (results : List ResultRow) : List String :=
  (results.map ResultRow.status).dedup

/-- The vendor summary
`result_df.groupby("GSTIN")["Status"].value_counts().unstack().fillna(0)`
(app.py lines 187-192 / app2.py lines 193-198): one row per distinct
GSTIN of the result set, one cell per status value occurring anywhere in
the result set, holding the count of that vendor's rows with that status
(0 when the combination is absent).  (pandas sorts the group keys; the
row order is irrelevant to every claim.) -/
def vendor_summary (results : List ResultRow) :
    List (String × List (String × Nat)) :=
  (results.map ResultRow.gstin).dedup.map (fun g =>
    (g, (statusColumns results).map (fun s =>
      (s, (results.filter (fun r => r.gstin == g && r.status == s)).length))))

/-! ## Schema validation (column resolution) -/

/-- The header rename applied by both files after `str.strip()`: the
static synonym map sends `"Invoice Number"` and `"Invoice No"` to
`"Invoice_Number"` and `"Invoice Date"` to `"Invoice_Date"`; the remaining
entries of the source `rename` dictionaries are identities. -/
def renameHeader (c : String) : String :=
  if c = "Invoice Number" then "Invoice_Number"
  else if c = "Invoice No" then "Invoice_Number"
  else if c = "Invoice Date" then "Invoice_Date"
  else c

/-- Header resolution: `df.columns.str.strip()` followed by `df.rename(columns=...)`. -/
def resolveHeaders (headers : List String) : List String :=
  headers.map (fun c => renameHeader c.trim)

/-- The `required_cols` list of app2.py line 68. -/
def required_cols : List String :=
  ["GSTIN", "Invoice_Number", "Invoice_Date", "CGST", "SGST", "IGST"]

/-- The app2.py validation loop (lines 70-76): for each required column in
order, first the purchase table and then the 2B table is checked; the
first absent column stops the run with an error naming the column and the
file. -/
def app2SchemaCheckAux (pcols bcols : List String) :
    List String → Except String Unit
  | [] => Except.ok ()
  | c :: rest =>
      if c ∉ pcols then
        Except.error ("Missing column in Purchase File: " ++ c)
      else if c ∉ bcols then
        Except.error ("Missing column in 2B File: " ++ c)
      else app2SchemaCheckAux pcols bcols rest

/-- Schema validation of app2.py over the resolved column names. -/
def app2SchemaCheck (pcols bcols : List String) : Except String Unit :=
  app2SchemaCheckAux pcols bcols required_cols

/-- How a run of app.py can abort before producing results:
`stopped` models `st.error(msg); st.stop()` (the message names the
dataset), `keyError` models an uncaught pandas `KeyError` on a missing
column (it names only the column), `valueError` models an uncaught pandas
`ValueError`. -/
inductive AppError where
  | stopped (msg : String)
  | keyError (col : String)
  | valueError (msg : String)
deriving Repr, DecidableEq

/-- Which of the two tables a column access of app.py touches. -/
inductive Side where
  | purchase
  | ref
deriving Repr, DecidableEq

/-- The column accesses app.py performs after its explicit Invoice_Date
checks, in source order: the fillna loop of lines 92-94 (purchase then 2B
per tax column), the GSTIN validation of line 99, and the KEY construction
of lines 104-112.  The first access to an absent column raises
`KeyError(column)`. -/
def app1Accesses : List (String × Side) :=
  [("CGST", Side.purchase), ("CGST", Side.ref),
   ("SGST", Side.purchase), ("SGST", Side.ref),
   ("IGST", Side.purchase), ("IGST", Side.ref),
   ("GSTIN", Side.purchase), ("Invoice_Number", Side.purchase),
   ("GSTIN", Side.ref), ("Invoice_Number", Side.ref)]

/-- First failing column access of app.py, if any. -/
def app1AccessCheck (pcols bcols : List String) :
    List (String × Side) → Except AppError Unit
  | [] => Except.ok ()
  | (c, Side.purchase) :: rest =>
      if c ∉ pcols then Except.error (AppError.keyError c)
      else app1AccessCheck pcols bcols rest
  | (c, Side.ref) :: rest =>
      if c ∉ bcols then Except.error (AppError.keyError c)
      else app1AccessCheck pcols bcols rest

/-- Schema behaviour of app.py over the resolved column names: only
`Invoice_Date` is checked explicitly (lines 56-62 and 81-87, with an
error message naming the dataset); every other required column is simply
accessed, so a missing one surfaces as a bare `KeyError`. -/
def app1SchemaCheck (pcols bcols : List String) : Except AppError Unit :=
  if "Invoice_Date" ∉ pcols then
    Except.error (AppError.stopped "Invoice Date column not found in Purchase Excel")
  else if "Invoice_Date" ∉ bcols then
    Except.error (AppError.stopped "Invoice Date column not found in GSTR-2B Excel")
  else app1AccessCheck pcols bcols app1Accesses

/-! ## End-to-end runs (schema check, then classification) -/

/-- A full app.py run over resolved headers and canonical rows: schema
behaviour first, then the reference dictionary (which can itself fail on
duplicate keys), then the row loop. -/
def app1Run (pcols bcols : List String) (purchase : List PRow)
    (b2b : List BRow) : Except AppError (List ResultRow) :=
  match app1SchemaCheck pcols bcols with
  | Except.error e => Except.error e
  | Except.ok _ =>
      match to_dict_index b2b with
      | Except.error m => Except.error (AppError.valueError m)
      | Except.ok dict => Except.ok (app1Results dict purchase)

/-- A full app2.py run over resolved headers and canonical rows. -/
def app2Run (pcols bcols : List String) (purchase : List PRow)
    (b2b : List BRow) : Except String (List ResultRow) :=
  match app2SchemaCheck pcols bcols with
  | Except.error e => Except.error e
  | Except.ok _ => Except.ok (app2Results purchase b2b)

/-- Whether `t` occurs as a contiguous run inside `s` (character lists). -/
def hasInfix (t : List Char) : List Char → Bool
  | [] => t.isPrefixOf []
  | c :: rest => t.isPrefixOf (c :: rest) || hasInfix t rest

/-- Whether `s` contains `t` as a substring. -/
def strContains (s t : String) : Bool := hasInfix t.data s.data

/-- A suffix occurs as a substring. -/
theorem hasInfix_of_suffix (t : List Char) :
    ∀ s : List Char, t <:+ s → hasInfix t s = true := by
  intro s
  induction s with
  | nil =>
      intro h
      have : t = [] := List.eq_nil_of_suffix_nil h
      simp [hasInfix, this, List.isPrefixOf]
  | cons c rest ih =>
      intro h
      rcases List.suffix_cons_iff.1 h with h1 | h2
      · have : t.isPrefixOf (c :: rest) = true :=
          List.isPrefixOf_iff_prefix.2 (h1 ▸ List.prefix_refl _)
        simp [hasInfix, this]
      · simp [hasInfix, ih h2]

/-- The second operand of a string append occurs in the result. -/
theorem strContains_append (a b : String) : strContains (a ++ b) b = true := by
  unfold strContains
  rw [String.data_append]
  exact hasInfix_of_suffix _ _ (List.suffix_append _ _)

/-! ## Concrete fixture records (used by counterexamples and witnesses) -/

/-- A GSTIN accepted by `valid_gstin` (the example of the spec, §8). -/
def gstinOK : String := "27AAAPL1234C1Z5"

/-- Purchase record of the spec's concrete scenarios. -/
def pM : PRow :=
  { gstin := gstinOK, invoice_number := "INV001", invoice_date := none,
    cgst := 100, sgst := 100, igst := 0 }

/-- Reference record matching `pM` with identical tax amounts. -/
def bEq : BRow :=
  { gstin := gstinOK, invoice_number := "INV001", invoice_date := none,
    cgst := 100, sgst := 100, igst := 0 }

/-- Reference record matching `pM`'s key with `CGST = 90` (tax difference
10). -/
def bDiff : BRow :=
  { gstin := gstinOK, invoice_number := "INV001", invoice_date := none,
    cgst := 90, sgst := 100, igst := 0 }

/-- A second reference record with the same key as `bDiff` (duplicate Join
Key) and `CGST = 80`. -/
def bDiff2 : BRow :=
  { gstin := gstinOK, invoice_number := "INV001", invoice_date := none,
    cgst := 80, sgst := 100, igst := 0 }

/-- A duplicate of `bEq`: same Join Key, same tax amounts. -/
def bEq2 : BRow :=
  { gstin := gstinOK, invoice_number := "INV001", invoice_date := none,
    cgst := 100, sgst := 100, igst := 0 }

/-- The classified row `pM` yields when its reference record matches
exactly. -/
def rrM : ResultRow :=
  { gstin := gstinOK, invoice_number := "INV001", invoice_date := none,
    cgst := 100, sgst := 100, igst := 0, status := "Matched", remark := "" }

/-- Purchase record with a format-invalid GSTIN. -/
def pBad : PRow :=
  { gstin := "INVALID123", invoice_number := "INV001", invoice_date := none,
    cgst := 100, sgst := 100, igst := 0 }

/-- Reference record sharing `pBad`'s key but with different tax amounts
(so the record is both invalid-GSTIN and tax-mismatched). -/
def bBad : BRow :=
  { gstin := "INVALID123", invoice_number := "INV001", invoice_date := none,
    cgst := 50, sgst := 100, igst := 0 }

/-- Purchase record whose invoice number contains an underscore. -/
def pCross : PRow :=
  { gstin := gstinOK, invoice_number := "B_C", invoice_date := none,
    cgst := 100, sgst := 100, igst := 0 }

/-- Reference record with a different GSTIN and invoice number than
`pCross`, yet the same join key. -/
def bCross : BRow :=
  { gstin := "27AAAPL1234C1Z5_B", invoice_number := "C",
    invoice_date := none, cgst := 100, sgst := 100, igst := 0 }

/-! ## Characterization of the GSTIN matcher -/

/-- Positional characterization of `matchesClasses`: the lengths agree and
every position is accepted by its class. -/
theorem matchesClasses_eq_true_iff (ps : List (Char → Bool)) (cs : List Char) :
    matchesClasses ps cs = true ↔
      cs.length = ps.length ∧
        ∀ i, i < ps.length →
          (ps.getD i (fun _ => false)) (cs.getD i ' ') = true := by
  induction ps generalizing cs with
  | nil =>
      cases cs with
      | nil => simp [matchesClasses]
      | cons c cs => simp [matchesClasses]
  | cons p ps ih =>
      cases cs with
      | nil => simp [matchesClasses]
      | cons c cs =>
          rw [matchesClasses, Bool.and_eq_true, ih]
          constructor
          · rintro ⟨hp, hlen, h⟩
            refine ⟨by simpa using hlen, ?_⟩
            intro i hi
            cases i with
            | zero => simpa using hp
            | succ j => simpa using h j (by simpa using hi)
          · rintro ⟨hlen, h⟩
            refine ⟨by simpa using h 0 (by simp), by simpa using hlen, ?_⟩
            intro j hj
            simpa using h (j + 1) (by simpa using hj)

/-- The shape the amended claim describes: 15 characters that are, in
order, 2 digits, 5 uppercase letters, 4 digits, 1 uppercase letter, 1
character that is a digit 1-9 or an uppercase letter (the digit 0 is
excluded), the literal `Z`, and 1 character that is a digit or an
uppercase letter (lowercase letters are excluded everywhere). -/
def gstinShape (cs : List Char) : Prop :=
  cs.length = 15 ∧
  isDigit (cs.getD 0 ' ') = true ∧ isDigit (cs.getD 1 ' ') = true ∧
  isUpperAZ (cs.getD 2 ' ') = true ∧ isUpperAZ (cs.getD 3 ' ') = true ∧
  isUpperAZ (cs.getD 4 ' ') = true ∧ isUpperAZ (cs.getD 5 ' ') = true ∧
  isUpperAZ (cs.getD 6 ' ') = true ∧
  isDigit (cs.getD 7 ' ') = true ∧ isDigit (cs.getD 8 ' ') = true ∧
  isDigit (cs.getD 9 ' ') = true ∧ isDigit (cs.getD 10 ' ') = true ∧
  isUpperAZ (cs.getD 11 ' ') = true ∧ isEntityCode (cs.getD 12 ' ') = true ∧
  cs.getD 13 ' ' = 'Z' ∧ isAlnumUC (cs.getD 14 ' ') = true

/-- The core matcher accepts exactly the amended shape. -/
theorem matchesClasses_gstin_iff (cs : List Char) :
    matchesClasses gstinClasses cs = true ↔ gstinShape cs := by
  rw [matchesClasses_eq_true_iff]
  unfold gstinShape
  constructor
  · rintro ⟨hlen, h⟩
    refine ⟨by simpa [gstinClasses] using hlen,
      by simpa [gstinClasses] using h 0 (by simp [gstinClasses]),
      by simpa [gstinClasses] using h 1 (by simp [gstinClasses]),
      by simpa [gstinClasses] using h 2 (by simp [gstinClasses]),
      by simpa [gstinClasses] using h 3 (by simp [gstinClasses]),
      by simpa [gstinClasses] using h 4 (by simp [gstinClasses]),
      by simpa [gstinClasses] using h 5 (by simp [gstinClasses]),
      by simpa [gstinClasses] using h 6 (by simp [gstinClasses]),
      by simpa [gstinClasses] using h 7 (by simp [gstinClasses]),
      by simpa [gstinClasses] using h 8 (by simp [gstinClasses]),
      by simpa [gstinClasses] using h 9 (by simp [gstinClasses]),
      by simpa [gstinClasses] using h 10 (by simp [gstinClasses]),
      by simpa [gstinClasses] using h 11 (by simp [gstinClasses]),
      by simpa [gstinClasses] using h 12 (by simp [gstinClasses]),
      ?_,
      by simpa [gstinClasses] using h 14 (by simp [gstinClasses])⟩
    have h13 := h 13 (by simp [gstinClasses])
    simpa [gstinClasses] using h13
  · rintro ⟨hlen, h0, h1, h2, h3, h4, h5, h6, h7, h8, h9, h10, h11, h12,
      h13, h14⟩
    refine ⟨by simp [gstinClasses, hlen], ?_⟩
    intro i hi
    simp only [gstinClasses, List.length_cons, List.length_nil] at hi
    interval_cases i <;> simp_all [List.getD, gstinClasses]

/-- The validator the claim describes, written from the claim's words: 15
characters that are 2 digits, 5 uppercase letters, 4 digits, 1 uppercase
letter, 1 alphanumeric character, the literal `Z`, 1 trailing alphanumeric
character.  (Used only to compare the claim's reading against the code's
`valid_gstin`.) -/
def claimGstin (s : String) : Bool :=
  matchesClasses
    [isDigit, isDigit,
     isUpperAZ, isUpperAZ, isUpperAZ, isUpperAZ, isUpperAZ,
     isDigit, isDigit, isDigit, isDigit,
     isUpperAZ, Char.isAlphanum, (· == 'Z'), Char.isAlphanum]
    s.data

/-- C5 counterexample: `"27AAAAA1234A0Z5"` is 15 characters of the
claimed form (its 13th character, `0`, is alphanumeric), yet `valid_gstin`
rejects it, because the regex class at that position is `[1-9A-Z]`, which
excludes the digit 0. -/
theorem C5_counterexample :
    claimGstin "27AAAAA1234A0Z5" = true ∧
    valid_gstin "27AAAAA1234A0Z5" = false := by
  constructor <;> decide

/-- C5 amended: `valid_gstin` accepts a string exactly when it is 15
characters of the form 2 digits, 5 uppercase letters, 4 digits, 1
uppercase letter, 1 character that is a digit 1-9 or an uppercase letter
(the digit 0 excluded), the literal `Z`, and 1 character that is a digit
or uppercase letter — or that same form followed by one trailing newline
(Python's `$` anchor also matches just before a final newline).  The
predicate is pure: it inspects the string and never alters it. -/
theorem C5_amended (s : String) :
    valid_gstin s = true ↔
      gstinShape s.data ∨
        (s.data.getLast? = some '\n' ∧ gstinShape s.data.dropLast) := by
  unfold valid_gstin reFullMatch
  rw [Bool.or_eq_true, Bool.and_eq_true, matchesClasses_gstin_iff,
    matchesClasses_gstin_iff, beq_iff_eq]

/-- C10: the join key is built by plain concatenation with `"_"`, so the
distinct pairs (`"27A"`, `"B_C"`) and (`"27A_B"`, `"C"`) collide; with a
valid purchase GSTIN the same collision makes both engines compare a
purchase record against a reference record whose GSTIN and invoice number
both differ from its own (here they agree on the tax amounts, so the
record is classified `Matched` against a foreign reference record). -/
theorem C10_key_collision :
    mkKey "27A" "B_C" = mkKey "27A_B" "C" ∧
    ("27A", "B_C") ≠ (("27A_B", "C") : String × String) ∧
    pCross.gstin ≠ bCross.gstin ∧
    pCross.invoice_number ≠ bCross.invoice_number ∧
    pCross.key = bCross.key ∧
    (app1Results [(bCross.key, bCross)] [pCross]).map ResultRow.status
      = ["Matched"] ∧
    (app2Results [pCross] [bCross]).map ResultRow.status = ["Matched"] := by
  have hv : valid_gstin pCross.gstin = true := by decide
  have hk : (pCross.key == bCross.key) = true := by decide
  have hd : tax_diff pCross bCross = 0 := by
    norm_num [tax_diff, pCross, bCross]
  refine ⟨by decide, by decide, by decide, by decide, by decide, ?_, ?_⟩
  · simp [app1Results, classifyRow, List.lookup, hv, hk, hd]
  · have hk2 : (bCross.key == pCross.key) = true := by decide
    simp [app2Results, mergeLeft, mergeOne, mergedOf, app2ResultRow, app2Status,
      app2TaxDiff, hk2, hv]
    norm_num [pCross, bCross]

/-- Merged row with an invalid GSTIN and a tax mismatch present. -/
def mBad : MergedRow :=
  { gstin := "INVALID123", invoice_number := "INV001", invoice_date := none,
    cgst := 100, sgst := 100, igst := 0, ref := some (50, 100, 0) }

/-- Merged row with a valid GSTIN and no matching reference record. -/
def mMiss : MergedRow :=
  { gstin := gstinOK, invoice_number := "INV001", invoice_date := none,
    cgst := 100, sgst := 100, igst := 0, ref := none }

/-- Merged row with a valid GSTIN and a reference record differing by 10
in CGST. -/
def mDiff : MergedRow :=
  { gstin := gstinOK, invoice_number := "INV001", invoice_date := none,
    cgst := 100, sgst := 100, igst := 0, ref := some (90, 100, 0) }

/-- C2: in both engines, a purchase record whose GSTIN fails format
validation is classified `Invalid GSTIN` with an empty remark — for any
state of the reference lookup in app.py, and for any merged row (matched,
unmatched, or tax-differing) in app2.py. -/
theorem C2_invalid_overrides :
    (∀ (dict : List (String × BRow)) (row : PRow),
        valid_gstin row.gstin = false →
        (classifyRow dict row).status = "Invalid GSTIN" ∧
          (classifyRow dict row).remark = "") ∧
    (∀ m : MergedRow, valid_gstin m.gstin = false →
        app2Status m = "Invalid GSTIN" ∧ app2Remark m = "") := by
  constructor
  · intro dict row h
    constructor <;> simp [classifyRow, h]
  · intro m h
    constructor <;> simp [app2Status, app2Remark, h]

/-- C2 witness: a record with invalid GSTIN `"INVALID123"` and a
tax-mismatched reference record with the same key is still classified
`Invalid GSTIN`, never `Mismatch`, in both engines. -/
theorem C2_witness :
    (classifyRow [(bBad.key, bBad)] pBad).status = "Invalid GSTIN" ∧
    (classifyRow [(bBad.key, bBad)] pBad).remark = "" ∧
    app2Status mBad = "Invalid GSTIN" ∧ app2Remark mBad = "" :=
  ⟨(C2_invalid_overrides.1 [(bBad.key, bBad)] pBad (by decide)).1,
   (C2_invalid_overrides.1 [(bBad.key, bBad)] pBad (by decide)).2,
   (C2_invalid_overrides.2 mBad (by decide)).1,
   (C2_invalid_overrides.2 mBad (by decide)).2⟩

/-- C6 counterexample: app2.py writes `"Invoice not in 2B"` — not the
claimed `"Invoice not available in GSTR-2B"` — as the remark of a
valid-GSTIN record whose key is absent from the reference dataset. -/
theorem C6_counterexample :
    (app2Results [pM] []).map ResultRow.status = ["Missing in 2B"] ∧
    (app2Results [pM] []).map ResultRow.remark = ["Invoice not in 2B"] ∧
    "Invoice not in 2B" ≠ "Invoice not available in GSTR-2B" := by
  have hv : valid_gstin pM.gstin = true := by decide
  refine ⟨?_, ?_, by decide⟩ <;>
    simp [app2Results, mergeLeft, mergeOne, mergedOf, app2ResultRow, app2Status,
      app2Remark, app2TaxDiff, hv]

/-- C6 amended: a valid-GSTIN purchase record whose join key has no entry
in the reference lookup gets status `Missing in 2B` in both engines; the
remark is `"Invoice not available in GSTR-2B"` in app.py but
`"Invoice not in 2B"` in app2.py. -/
theorem C6_amended :
    (∀ (dict : List (String × BRow)) (row : PRow),
        valid_gstin row.gstin = true →
        List.lookup row.key dict = none →
        (classifyRow dict row).status = "Missing in 2B" ∧
          (classifyRow dict row).remark = "Invoice not available in GSTR-2B") ∧
    (∀ m : MergedRow, valid_gstin m.gstin = true → m.ref = none →
        app2Status m = "Missing in 2B" ∧ app2Remark m = "Invoice not in 2B") := by
  constructor
  · intro dict row hv hl
    constructor <;> simp [classifyRow, hv, hl]
  · intro m hv hr
    constructor <;> simp [app2Status, app2Remark, app2TaxDiff, hv, hr]

/-- C6 witness: the spec's concrete scenario 1 record against an empty
reference lookup, in both engines. -/
theorem C6_witness :
    (classifyRow [] pM).status = "Missing in 2B" ∧
    (classifyRow [] pM).remark = "Invoice not available in GSTR-2B" ∧
    app2Status mMiss = "Missing in 2B" ∧
    app2Remark mMiss = "Invoice not in 2B" :=
  ⟨(C6_amended.1 [] pM (by decide) rfl).1,
   (C6_amended.1 [] pM (by decide) rfl).2,
   (C6_amended.2 mMiss (by decide) rfl).1,
   (C6_amended.2 mMiss (by decide) rfl).2⟩

/-- C1 counterexample: on a valid-GSTIN record matched with a reference
record differing by 10 in CGST, app2.py classifies `Mismatch` but its
remark is the fixed string `"Tax Difference"`, which does not include the
literal numeric difference value (`"10"`). -/
theorem C1_counterexample :
    (app2Results [pM] [bDiff]).map ResultRow.status = ["Mismatch"] ∧
    (app2Results [pM] [bDiff]).map ResultRow.remark = ["Tax Difference"] ∧
    numStr (10 : ℚ) = "10" ∧
    strContains "Tax Difference" "10" = false := by
  have hv : valid_gstin "27AAAPL1234C1Z5" = true := by decide
  have hk : (bDiff.key == pM.key) = true := by decide
  refine ⟨?_, ?_, by rfl, by decide⟩ <;>
    · simp [app2Results, mergeLeft, mergeOne, mergedOf, app2ResultRow, app2Status,
        app2Remark, app2TaxDiff, hk, pM, bDiff, gstinOK, hv,
        BRow.key, PRow.key, mkKey]
      norm_num

/-- C1 amended: for a valid-GSTIN purchase record whose key is found in
the reference data, both engines compute the exact sum of absolute tax
component differences and classify `Mismatch` exactly when it is nonzero
(no epsilon) and `Matched` with an empty remark when it is zero; the
mismatch remark includes the literal numeric difference value in app.py
(`"Tax Difference = <value>"`), while app2.py writes the constant string
`"Tax Difference"` without the value. -/
theorem C1_amended :
    (∀ (dict : List (String × BRow)) (row : PRow) (b : BRow),
        valid_gstin row.gstin = true →
        List.lookup row.key dict = some b →
        (tax_diff row b =
            |row.cgst - b.cgst| + |row.sgst - b.sgst| + |row.igst - b.igst|) ∧
        (tax_diff row b ≠ 0 →
          (classifyRow dict row).status = "Mismatch" ∧
          (classifyRow dict row).remark
              = "Tax Difference = " ++ numStr (tax_diff row b) ∧
          strContains (classifyRow dict row).remark
              (numStr (tax_diff row b)) = true) ∧
        (tax_diff row b = 0 →
          (classifyRow dict row).status = "Matched" ∧
          (classifyRow dict row).remark = "")) ∧
    (∀ (m : MergedRow) (c s i : ℚ),
        valid_gstin m.gstin = true → m.ref = some (c, s, i) →
        (app2TaxDiff m = |m.cgst - c| + |m.sgst - s| + |m.igst - i|) ∧
        (app2TaxDiff m ≠ 0 →
          app2Status m = "Mismatch" ∧ app2Remark m = "Tax Difference") ∧
        (app2TaxDiff m = 0 →
          app2Status m = "Matched" ∧ app2Remark m = "")) := by
  constructor
  · intro dict row b hv hl
    refine ⟨rfl, ?_, ?_⟩
    · intro hd
      have h1 : (classifyRow dict row).remark
          = "Tax Difference = " ++ numStr (tax_diff row b) := by
        simp [classifyRow, hv, hl, hd]
      refine ⟨by simp [classifyRow, hv, hl, hd], h1, ?_⟩
      rw [h1]
      exact strContains_append _ _
    · intro hd
      constructor <;> simp [classifyRow, hv, hl, hd]
  · intro m c s i hv hr
    refine ⟨by simp [app2TaxDiff, hr], ?_, ?_⟩
    · intro hd
      constructor <;> simp [app2Status, app2Remark, hr, hv, hd]
    · intro hd
      constructor <;> simp [app2Status, app2Remark, hr, hv, hd]

/-- C1 witness: the spec's concrete scenario 3 (CGST 100 vs 90, difference
10) in both engines. -/
theorem C1_witness :
    (classifyRow [(bDiff.key, bDiff)] pM).status = "Mismatch" ∧
    (classifyRow [(bDiff.key, bDiff)] pM).remark
        = "Tax Difference = " ++ numStr (tax_diff pM bDiff) ∧
    app2Status mDiff = "Mismatch" ∧ app2Remark mDiff = "Tax Difference" :=
  ⟨((C1_amended.1 [(bDiff.key, bDiff)] pM bDiff (by decide) rfl).2.1
      (by norm_num [tax_diff, pM, bDiff])).1,
   ((C1_amended.1 [(bDiff.key, bDiff)] pM bDiff (by decide) rfl).2.1
      (by norm_num [tax_diff, pM, bDiff])).2.1,
   ((C1_amended.2 mDiff 90 100 0 (by decide) rfl).2.1
      (by norm_num [app2TaxDiff, mDiff])).1,
   ((C1_amended.2 mDiff 90 100 0 (by decide) rfl).2.1
      (by norm_num [app2TaxDiff, mDiff])).2⟩

/-! ## Duplicate reference keys: lookup construction and merge shape -/

/-- Under distinct reference keys, at most one reference row matches any
given key. -/
theorem filter_key_length_le_one (b2b : List BRow)
    (h : (b2b.map BRow.key).Nodup) (k : String) :
    (b2b.filter (fun b => b.key == k)).length ≤ 1 := by
  induction b2b with
  | nil => simp
  | cons b bs ih =>
      rw [List.map_cons, List.nodup_cons] at h
      by_cases hb : (b.key == k) = true
      · have hk : b.key = k := beq_iff_eq.mp hb
        have hnil : bs.filter (fun b2 => b2.key == k) = [] := by
          rw [List.filter_eq_nil_iff]
          intro b2 hb2 hbeq
          exact h.1 (hk ▸ (beq_iff_eq.mp hbeq) ▸ List.mem_map_of_mem BRow.key hb2)
        simp [List.filter_cons, hb, hnil]
      · simp only [List.filter_cons, hb, if_false]
        exact ih h.2

/-- Under distinct reference keys, the left merge produces exactly one row
per purchase record, carrying that record's identity fields. -/
theorem mergeOne_eq_of_nodup (b2b : List BRow) (p : PRow)
    (h : (b2b.map BRow.key).Nodup) :
    ∃ m : MergedRow, mergeOne b2b p = [m] ∧
      m.gstin = p.gstin ∧ m.invoice_number = p.invoice_number := by
  have hle := filter_key_length_le_one b2b h p.key
  rcases hms : b2b.filter (fun b => b.key == p.key) with _ | ⟨b, rest⟩
  · refine ⟨mergedOf p none, ?_, rfl, rfl⟩
    simp [mergeOne, hms]
  · rw [hms] at hle
    have hrest : rest = [] := by
      simp only [List.length_cons] at hle
      exact List.eq_nil_of_length_eq_zero (by omega)
    subst hrest
    refine ⟨mergedOf p (some (b.cgst, b.sgst, b.igst)), ?_, rfl, rfl⟩
    simp [mergeOne, hms]

/-- Under distinct reference keys, app2's output has one row per purchase
record. -/
theorem app2Results_length_of_nodup (purchase : List PRow) (b2b : List BRow)
    (h : (b2b.map BRow.key).Nodup) :
    (app2Results purchase b2b).length = purchase.length := by
  induction purchase with
  | nil => simp [app2Results, mergeLeft]
  | cons p ps ih =>
      obtain ⟨m, hm, -, -⟩ := mergeOne_eq_of_nodup b2b p h
      simp only [app2Results, mergeLeft, List.flatMap_cons, List.map_append,
        List.length_append, hm] at ih ⊢
      simp [ih]
      omega

/-- Under distinct reference keys, the i-th app2 output row carries the
identity fields of the i-th purchase record. -/
theorem app2Results_getElem_of_nodup (purchase : List PRow) (b2b : List BRow)
    (h : (b2b.map BRow.key).Nodup) :
    ∀ i : Nat,
      ((app2Results purchase b2b)[i]?).map (fun r => (r.gstin, r.invoice_number))
        = (purchase[i]?).map (fun p => (p.gstin, p.invoice_number)) := by
  induction purchase with
  | nil => intro i; simp [app2Results, mergeLeft]
  | cons p ps ih =>
      intro i
      obtain ⟨m, hm, hg, hn⟩ := mergeOne_eq_of_nodup b2b p h
      cases i with
      | zero =>
          simp [app2Results, mergeLeft, List.flatMap_cons, hm, app2ResultRow,
            hg, hn]
      | succ j =>
          simp only [app2Results, mergeLeft, List.flatMap_cons, hm,
            List.map_append, List.map_cons, List.map_nil,
            List.cons_append, List.nil_append, List.getElem?_cons_succ]
          exact ih j

/-- C3 counterexample: one purchase record against a reference dataset
with two rows sharing its Join Key — app2's left merge emits two
classified rows for the single purchase record. -/
theorem C3_counterexample :
    (app2Results [pM] [bDiff, bDiff2]).length = 2 ∧
    ([pM] : List PRow).length = 1 := by
  constructor
  · simp [app2Results, mergeLeft, mergeOne, mergedOf, pM, bDiff, bDiff2,
      BRow.key, PRow.key, mkKey, gstinOK]
  · rfl

/-- C3 amended: app.py emits exactly one classified record per purchase
record, in order, whenever its reference-lookup construction succeeds;
with duplicate reference Join Keys that construction raises a ValueError
and app.py emits nothing, while app2.py emits one row per (purchase
record, matching reference occurrence) pair — cardinality and order are
preserved only when the reference keys are distinct. -/
theorem C3_amended :
    (∀ (dict : List (String × BRow)) (purchase : List PRow),
        (app1Results dict purchase).length = purchase.length ∧
        ∀ i : Nat, (app1Results dict purchase)[i]?
            = (purchase[i]?).map (classifyRow dict)) ∧
    (∀ (purchase : List PRow) (b2b : List BRow),
        ¬ (b2b.map BRow.key).Nodup →
        ∀ pcols bcols, app1SchemaCheck pcols bcols = Except.ok () →
          app1Run pcols bcols purchase b2b
            = Except.error (AppError.valueError
                "DataFrame index must be unique for orient=index.")) ∧
    (∀ (purchase : List PRow) (b2b : List BRow),
        (b2b.map BRow.key).Nodup →
        (app2Results purchase b2b).length = purchase.length ∧
        ∀ i : Nat,
          ((app2Results purchase b2b)[i]?).map
              (fun r => (r.gstin, r.invoice_number))
            = (purchase[i]?).map (fun p => (p.gstin, p.invoice_number))) := by
  refine ⟨?_, ?_, ?_⟩
  · intro dict purchase
    exact ⟨by simp [app1Results], fun i => by simp [app1Results, List.getElem?_map]⟩
  · intro purchase b2b hdup pcols bcols hok
    simp [app1Run, hok, to_dict_index, hdup]
  · intro purchase b2b h
    exact ⟨app2Results_length_of_nodup purchase b2b h,
      app2Results_getElem_of_nodup purchase b2b h⟩

/-- C3 witness: concrete instances of all three parts of the amended
claim. -/
theorem C3_witness :
    (app1Results [] [pM]).length = 1 ∧
    (app1Results [] [pM])[0]? = some (classifyRow [] pM) ∧
    app1Run required_cols required_cols [pM] [bDiff, bDiff2]
      = Except.error (AppError.valueError
          "DataFrame index must be unique for orient=index.") ∧
    (app2Results [pM] [bEq]).length = 1 :=
  ⟨(C3_amended.1 [] [pM]).1,
   (C3_amended.1 [] [pM]).2 0,
   C3_amended.2.1 [pM] [bDiff, bDiff2] (by decide) required_cols required_cols
     (by rfl),
   (C3_amended.2.2 [pM] [bEq] (by decide)).1⟩

/-- C4 counterexample: with two reference rows sharing one Join Key,
app.py's run fails with pandas' ValueError from
`to_dict(orient="index")` — an error IS raised, and no last-occurrence
lookup is ever built. -/
theorem C4_counterexample :
    app1Run required_cols required_cols [pM] [bDiff, bDiff2]
      = Except.error (AppError.valueError
          "DataFrame index must be unique for orient=index.") := by
  rfl

/-- C4 amended: duplicate reference Join Keys make app.py's lookup
construction raise a ValueError (no lookup, no classification); with
distinct keys the lookup holds exactly one entry per reference row.
app2.py raises no error but retains every duplicate occurrence: each
matching reference row contributes its own comparison row, rather than
only the last occurrence being used. -/
theorem C4_amended :
    (∀ b2b : List BRow, ¬ (b2b.map BRow.key).Nodup →
        to_dict_index b2b
          = Except.error "DataFrame index must be unique for orient=index.") ∧
    (∀ b2b : List BRow, (b2b.map BRow.key).Nodup →
        to_dict_index b2b = Except.ok (b2b.map (fun r => (r.key, r)))) ∧
    (∀ (p : PRow) (b2b : List BRow) (b : BRow), b ∈ b2b → b.key = p.key →
        some (b.cgst, b.sgst, b.igst)
          ∈ (mergeOne b2b p).map MergedRow.ref) := by
  refine ⟨?_, ?_, ?_⟩
  · intro b2b h
    simp [to_dict_index, h]
  · intro b2b h
    simp [to_dict_index, h]
  · intro p b2b b hmem hkey
    have hfil : b ∈ b2b.filter (fun b2 => b2.key == p.key) :=
      List.mem_filter.2 ⟨hmem, beq_iff_eq.mpr hkey⟩
    have hne : (b2b.filter (fun b2 => b2.key == p.key)).isEmpty = false := by
      rcases hms : b2b.filter (fun b2 => b2.key == p.key) with _ | ⟨x, xs⟩
      · rw [hms] at hfil; simp at hfil
      · rw [hms]; rfl
    simp only [mergeOne, hne, Bool.false_eq_true, if_false, List.map_map]
    exact List.mem_map.2 ⟨b, hfil, rfl⟩

/-- C4 witness: concrete instances — a duplicate-key reference dataset
makes the lookup construction error; a distinct-key one yields the
key-indexed mapping; a matching duplicate occurrence appears among the
merge's comparison rows. -/
theorem C4_witness :
    to_dict_index [bDiff, bDiff2]
      = Except.error "DataFrame index must be unique for orient=index." ∧
    to_dict_index [bEq] = Except.ok [(bEq.key, bEq)] ∧
    some (bDiff.cgst, bDiff.sgst, bDiff.igst)
      ∈ (mergeOne [bDiff, bDiff2] pM).map MergedRow.ref :=
  ⟨C4_amended.1 [bDiff, bDiff2] (by decide),
   C4_amended.2.1 [bEq] (by decide),
   C4_amended.2.2 pM [bDiff, bDiff2] bDiff (List.mem_cons_self bDiff [bDiff2])
     (by decide)⟩

/-! ## Schema validation: characterizations -/

/-- app2's validation loop succeeds exactly when every checked column is
present in both tables. -/
theorem app2SchemaCheckAux_ok_iff (pcols bcols : List String) :
    ∀ cols : List String,
      app2SchemaCheckAux pcols bcols cols = Except.ok () ↔
        ∀ c ∈ cols, c ∈ pcols ∧ c ∈ bcols := by
  intro cols
  induction cols with
  | nil => simp [app2SchemaCheckAux]
  | cons c rest ih =>
      by_cases hp : c ∈ pcols
      · by_cases hb : c ∈ bcols
        · simp [app2SchemaCheckAux, hp, hb, ih]
        · simp [app2SchemaCheckAux, hp, hb]
      · simp [app2SchemaCheckAux, hp]

/-- When app2's validation loop fails, the error message names a checked
column that is absent, together with the file it is missing from. -/
theorem app2SchemaCheckAux_error (pcols bcols : List String) :
    ∀ (cols : List String) (e : String),
      app2SchemaCheckAux pcols bcols cols = Except.error e →
      ∃ c ∈ cols,
        (c ∉ pcols ∧ e = "Missing column in Purchase File: " ++ c) ∨
        (c ∈ pcols ∧ c ∉ bcols ∧ e = "Missing column in 2B File: " ++ c) := by
  intro cols
  induction cols with
  | nil => intro e h; simp [app2SchemaCheckAux] at h
  | cons c rest ih =>
      intro e h
      by_cases hp : c ∈ pcols
      · by_cases hb : c ∈ bcols
        · rw [app2SchemaCheckAux, if_neg (by simpa using hp),
            if_neg (by simpa using hb)] at h
          obtain ⟨c2, hc2, hor⟩ := ih e h
          exact ⟨c2, List.mem_cons_of_mem c hc2, hor⟩
        · rw [app2SchemaCheckAux, if_neg (by simpa using hp),
            if_pos (by simpa using hb)] at h
          exact ⟨c, List.mem_cons_self c rest,
            Or.inr ⟨hp, hb, (Except.error.injEq _ _).mp h.symm⟩⟩
      · rw [app2SchemaCheckAux, if_pos (by simpa using hp)] at h
        exact ⟨c, List.mem_cons_self c rest,
          Or.inl ⟨hp, (Except.error.injEq _ _).mp h.symm⟩⟩

/-- app.py's sequence of column accesses succeeds exactly when every
accessed column is present in the table it is read from. -/
theorem app1AccessCheck_ok_iff (pcols bcols : List String) :
    ∀ accs : List (String × Side),
      app1AccessCheck pcols bcols accs = Except.ok () ↔
        ∀ a ∈ accs, (a.2 = Side.purchase → a.1 ∈ pcols) ∧
          (a.2 = Side.ref → a.1 ∈ bcols) := by
  intro accs
  induction accs with
  | nil => simp [app1AccessCheck]
  | cons a rest ih =>
      rcases a with ⟨c, side⟩
      cases side with
      | purchase =>
          by_cases hp : c ∈ pcols
          · simp [app1AccessCheck, hp, ih]
          · simp [app1AccessCheck, hp]
      | ref =>
          by_cases hb : c ∈ bcols
          · simp [app1AccessCheck, hb, ih]
          · simp [app1AccessCheck, hb]

/-- C7 counterexample: a purchase table lacking only the `GSTIN` column
(with a complete reference table) makes app.py abort with a bare
`KeyError("GSTIN")` — an uncaught column lookup failure naming only the
column, not the `st.error`-style schema stop that names the dataset (that
path exists only for `Invoice_Date`).  No result is produced. -/
theorem C7_counterexample :
    app1SchemaCheck ["Invoice_Number", "Invoice_Date", "CGST", "SGST", "IGST"]
        required_cols
      = Except.error (AppError.keyError "GSTIN") ∧
    app1Run ["Invoice_Number", "Invoice_Date", "CGST", "SGST", "IGST"]
        required_cols [pM] [bEq]
      = Except.error (AppError.keyError "GSTIN") := by
  constructor <;> rfl

/-- C7 amended: app2.py checks all six required columns before anything
else and stops with an error naming the missing column and the file, with
no result produced.  app.py also halts before classification whenever a
required column is missing from either table, but only the
`Invoice_Date` check carries a dataset-identifying message; any other
missing column surfaces as an uncaught `KeyError` naming the column
alone. -/
theorem C7_amended :
    (∀ pcols bcols : List String,
        app2SchemaCheck pcols bcols = Except.ok () ↔
          ∀ c ∈ required_cols, c ∈ pcols ∧ c ∈ bcols) ∧
    (∀ (pcols bcols : List String) (e : String),
        app2SchemaCheck pcols bcols = Except.error e →
        ∃ c ∈ required_cols,
          (c ∉ pcols ∧ e = "Missing column in Purchase File: " ++ c) ∨
          (c ∈ pcols ∧ c ∉ bcols ∧ e = "Missing column in 2B File: " ++ c)) ∧
    (∀ pcols bcols : List String,
        app1SchemaCheck pcols bcols = Except.ok () ↔
          ∀ c ∈ required_cols, c ∈ pcols ∧ c ∈ bcols) ∧
    (∀ (pcols bcols : List String) (purchase : List PRow) (b2b : List BRow)
        (e : String), app2SchemaCheck pcols bcols = Except.error e →
        app2Run pcols bcols purchase b2b = Except.error e) ∧
    (∀ (pcols bcols : List String) (purchase : List PRow) (b2b : List BRow)
        (e : AppError), app1SchemaCheck pcols bcols = Except.error e →
        app1Run pcols bcols purchase b2b = Except.error e) := by
  refine ⟨?_, ?_, ?_, ?_, ?_⟩
  · intro pcols bcols
    exact app2SchemaCheckAux_ok_iff pcols bcols required_cols
  · intro pcols bcols e h
    exact app2SchemaCheckAux_error pcols bcols required_cols e h
  · intro pcols bcols
    by_cases hd1 : "Invoice_Date" ∈ pcols
    · by_cases hd2 : "Invoice_Date" ∈ bcols
      · rw [app1SchemaCheck, if_neg (by simpa using hd1),
          if_neg (by simpa using hd2), app1AccessCheck_ok_iff]
        simp [app1Accesses, required_cols, hd1, hd2]
        tauto
      · rw [app1SchemaCheck, if_neg (by simpa using hd1),
          if_pos (by simpa using hd2)]
        simp only [required_cols]
        constructor
        · intro h; cases h
        · intro h
          exact absurd (h "Invoice_Date" (by simp)).2 hd2
    · rw [app1SchemaCheck, if_pos (by simpa using hd1)]
      simp only [required_cols]
      constructor
      · intro h; cases h
      · intro h
        exact absurd (h "Invoice_Date" (by simp)).1 hd1
  · intro pcols bcols purchase b2b e h
    simp [app2Run, h]
  · intro pcols bcols purchase b2b e h
    simp [app1Run, h]

/-- C7 witness: complete headers pass both schema checks; a purchase
table with only a `GSTIN` column makes app2 stop with an error naming
`Invoice_Number` and the purchase file; a purchase table lacking `GSTIN`
makes app.py abort with `KeyError("GSTIN")` — in both cases the run
yields an error and no classified rows. -/
theorem C7_witness :
    app2SchemaCheck required_cols required_cols = Except.ok () ∧
    app1SchemaCheck required_cols required_cols = Except.ok () ∧
    app2Run ["GSTIN"] required_cols [] []
      = Except.error "Missing column in Purchase File: Invoice_Number" ∧
    app1Run ["Invoice_Number", "Invoice_Date", "CGST", "SGST", "IGST"]
        required_cols [] []
      = Except.error (AppError.keyError "GSTIN") :=
  ⟨(C7_amended.1 required_cols required_cols).2 (by decide),
   (C7_amended.2.2.1 required_cols required_cols).2 (by decide),
   C7_amended.2.2.2.1 ["GSTIN"] required_cols [] [] _ (by rfl),
   C7_amended.2.2.2.2 ["Invoice_Number", "Invoice_Date", "CGST", "SGST",
     "IGST"] required_cols [] [] _ (by rfl)⟩

/-! ## Aggregation: status counts and vendor summary -/

/-- C8 amended: the `value_counts` mapping has an entry `(s, n)` exactly
when the status `s` occurs in the sequence and `n` is its occurrence
count; a status with zero occurrences has no entry (rather than an entry
with value 0). -/
theorem C8_amended (l : List String) (s : String) (n : Nat) :
    (s, n) ∈ value_counts l ↔ s ∈ l ∧ n = l.count s := by
  simp only [value_counts, List.mem_map, Prod.mk.injEq]
  constructor
  · rintro ⟨v, hv, rfl, rfl⟩
    exact ⟨List.mem_dedup.mp hv, rfl⟩
  · rintro ⟨hs, rfl⟩
    exact ⟨s, List.mem_dedup.mpr hs, rfl, rfl⟩

/-- C8 counterexample: a run in which every record is `Matched` produces a
status-count mapping with a single entry; the three other statuses have no
entry at all — in particular there is no entry with value 0 for
`Mismatch`, `Missing in 2B` or `Invalid GSTIN`. -/
theorem C8_counterexample :
    (app1Results [(bEq.key, bEq)] [pM]).map ResultRow.status = ["Matched"] ∧
    value_counts ((app1Results [(bEq.key, bEq)] [pM]).map ResultRow.status)
      = [("Matched", 1)] ∧
    ("Mismatch", 0) ∉
      value_counts ((app1Results [(bEq.key, bEq)] [pM]).map ResultRow.status) ∧
    ("Missing in 2B", 0) ∉
      value_counts ((app1Results [(bEq.key, bEq)] [pM]).map ResultRow.status) ∧
    ("Invalid GSTIN", 0) ∉
      value_counts ((app1Results [(bEq.key, bEq)] [pM]).map ResultRow.status) := by
  have h1 : (app1Results [(bEq.key, bEq)] [pM]).map ResultRow.status
      = ["Matched"] := by
    have hv : valid_gstin pM.gstin = true := by decide
    have hk : (pM.key == bEq.key) = true := by decide
    have hd : tax_diff pM bEq = 0 := by norm_num [tax_diff, pM, bEq]
    simp [app1Results, classifyRow, List.lookup, hv, hk, hd]
  refine ⟨h1, ?_, ?_, ?_, ?_⟩ <;> rw [h1] <;> decide

/-- Sum of a constant-zero map. -/
theorem sum_map_zero (S : List String) :
    (S.map (fun _ => (0 : Nat))).sum = 0 := by
  induction S with
  | nil => rfl
  | cons a S ih => simp [ih]

/-- Pointwise sums split. -/
theorem sum_map_add (S : List String) (f g : String → Nat) :
    (S.map (fun s => f s + g s)).sum = (S.map f).sum + (S.map g).sum := by
  induction S with
  | nil => rfl
  | cons a S ih => simp [ih]; omega

/-- An indicator summed over a list avoiding the point is 0. -/
theorem sum_indicator_zero (a : String) (S : List String) (h : a ∉ S) :
    (S.map (fun s => if a = s then (1 : Nat) else 0)).sum = 0 := by
  induction S with
  | nil => rfl
  | cons c S ih =>
      simp only [List.mem_cons, not_or] at h
      simp [h.1, ih h.2]

/-- An indicator summed over a duplicate-free list containing the point is
1. -/
theorem sum_indicator_one (a : String) (S : List String) (hS : S.Nodup)
    (ha : a ∈ S) :
    (S.map (fun s => if a = s then (1 : Nat) else 0)).sum = 1 := by
  induction S with
  | nil => cases ha
  | cons b S ih =>
      rw [List.nodup_cons] at hS
      rcases List.mem_cons.1 ha with rfl | hmem
      · simp [sum_indicator_zero a S hS.1]
      · have hne : a ≠ b := fun hab => hS.1 (hab ▸ hmem)
        simp [hne, ih hS.2 hmem]

/-- Counting a vendor's rows status-by-status over a duplicate-free status
list that covers every row's status adds up to the vendor's row count. -/
theorem countP_status_split (S : List String) (hS : S.Nodup) (g : String) :
    ∀ results : List ResultRow, (∀ r ∈ results, r.status ∈ S) →
      (S.map (fun s =>
          results.countP (fun r => r.gstin == g && r.status == s))).sum
        = results.countP (fun r => r.gstin == g) := by
  intro results
  induction results with
  | nil =>
      intro _
      simp [List.countP_nil, sum_map_zero]
  | cons r rs ih =>
      intro h
      have hr : r.status ∈ S := h r (List.mem_cons_self r rs)
      have hrs : ∀ x ∈ rs, x.status ∈ S :=
        fun x hx => h x (List.mem_cons_of_mem r hx)
      simp only [List.countP_cons]
      rw [sum_map_add, ih hrs]
      congr 1
      by_cases hg : (r.gstin == g) = true
      · simp only [hg, Bool.true_and, beq_iff_eq]
        exact sum_indicator_one r.status S hS hr
      · have hg2 : (r.gstin == g) = false := by
          exact Bool.not_eq_true _ ▸ (by simpa using hg)
        simp [hg2, sum_map_zero]

/-- Classification preserves the GSTIN of the purchase record. -/
theorem classifyRow_gstin (dict : List (String × BRow)) (row : PRow) :
    (classifyRow dict row).gstin = row.gstin := by
  simp only [classifyRow]
  split
  · rfl
  · split
    · rfl
    · split
      · rfl
      · rfl

/-- C9 counterexample: a single purchase record and a reference dataset
holding two copies of its invoice (duplicate Join Key, identical taxes):
app2's vendor summary has one row for the vendor whose counts sum to 2,
but the vendor has only 1 purchase record. -/
theorem C9_counterexample :
    vendor_summary (app2Results [pM] [bEq, bEq2])
      = [(gstinOK, [("Matched", 2)])] ∧
    ([pM].filter (fun p => p.gstin == gstinOK)).length = 1 := by
  have hv : valid_gstin "27AAAPL1234C1Z5" = true := by decide
  have h : app2Results [pM] [bEq, bEq2] = [rrM, rrM] := by
    simp [app2Results, mergeLeft, mergeOne, mergedOf, app2ResultRow,
      app2Status, app2Remark, app2TaxDiff, pM, bEq, bEq2, rrM,
      BRow.key, PRow.key, mkKey, gstinOK, hv]
  rw [h]
  exact ⟨by decide, by decide⟩

/-- C9 amended: the vendor summary always has exactly one row per
distinct GSTIN of the classified output, and its per-status counts sum to
that vendor's number of classified rows.  In app.py the classified rows
are one-to-one with the purchase records, so both parts of the claim
hold.  In app2.py the classified rows are the merged rows, so with
duplicate reference Join Keys a vendor's counts sum to its merged-row
count, which exceeds its purchase-record count. -/
theorem C9_amended :
    (∀ results : List ResultRow,
        (vendor_summary results).map Prod.fst
          = (results.map ResultRow.gstin).dedup) ∧
    (∀ (results : List ResultRow) (g : String) (row : List (String × Nat)),
        (g, row) ∈ vendor_summary results →
        (row.map Prod.snd).sum
          = (results.filter (fun r => r.gstin == g)).length) ∧
    (∀ (dict : List (String × BRow)) (purchase : List PRow),
        (app1Results dict purchase).map ResultRow.gstin
          = purchase.map PRow.gstin) ∧
    (∀ (dict : List (String × BRow)) (purchase : List PRow) (g : String),
        ((app1Results dict purchase).filter (fun r => r.gstin == g)).length
          = (purchase.filter (fun p => p.gstin == g)).length) ∧
    (∀ (purchase : List PRow) (b2b : List BRow) (g : String),
        ((app2Results purchase b2b).filter (fun r => r.gstin == g)).length
          = ((mergeLeft purchase b2b).filter (fun m => m.gstin == g)).length) := by
  refine ⟨?_, ?_, ?_, ?_, ?_⟩
  · intro results
    rw [vendor_summary, List.map_map]
    exact List.map_id _
  · intro results g row hmem
    simp only [vendor_summary, List.mem_map] at hmem
    obtain ⟨g2, hg2, heq⟩ := hmem
    have hgg : g2 = g := congrArg Prod.fst heq
    have hrow := congrArg Prod.snd heq
    dsimp only at hrow
    subst hgg
    rw [← hrow, List.map_map]
    have hcov : ∀ r ∈ results, r.status ∈ statusColumns results := by
      intro r hr
      simp only [statusColumns, List.mem_dedup]
      exact List.mem_map_of_mem ResultRow.status hr
    have hsplit := countP_status_split (statusColumns results)
      (List.nodup_dedup _) g2 results hcov
    rw [← List.countP_eq_length_filter, ← hsplit]
    congr 1
    have hfun : (Prod.snd ∘ fun s =>
          (s, (results.filter (fun r => r.gstin == g2 && r.status == s)).length))
        = fun s => results.countP (fun r => r.gstin == g2 && r.status == s) := by
      funext s
      rw [Function.comp_apply, List.countP_eq_length_filter]
    rw [hfun]
  · intro dict purchase
    induction purchase with
    | nil => rfl
    | cons p ps ih =>
        simp only [app1Results, List.map_cons, classifyRow_gstin] at ih ⊢
        rw [ih]
  · intro dict purchase g
    rw [← List.countP_eq_length_filter, ← List.countP_eq_length_filter,
      app1Results, List.countP_map]
    exact List.countP_congr
      (fun p _ => by rw [Function.comp_apply, classifyRow_gstin])
  · intro purchase b2b g
    rw [← List.countP_eq_length_filter, ← List.countP_eq_length_filter,
      app2Results, List.countP_map]
    exact List.countP_congr (fun m _ => by rfl)

/-- C9 witness: a one-row result set — the vendor summary row's counts sum
to the vendor's row count. -/
theorem C9_witness :
    (([("Matched", 1)] : List (String × Nat)).map Prod.snd).sum
      = ([rrM].filter (fun r => r.gstin == gstinOK)).length :=
  C9_amended.2.1 [rrM] gstinOK [("Matched", 1)] (by decide)

end GST
